import Mathlib

/-
Verification of the reminder scheduling and delivery engine of new_lifebot.

This file gives a shallow embedding, in Lean 4, of the scheduling core:

  * the quiet-hours evaluators (`src/scheduler.py` `_is_quiet_hours`,
    `src/handlers/habits.py` `is_in_quiet_hours`),
  * the job registry surface the code uses (apscheduler `add_job` with
    `replace_existing=True`, `remove_job`, `get_job`, `get_jobs`),
  * habit reminder scheduling and pre-generation (`ReminderScheduler`),
  * the habit completion / toggle / delete callback handlers,
  * the delegation escalation sweep (`src/delegation_reminders.py`),
  * the language workflow stages (`src/language_scheduler.py`).

Database sessions are modelled as explicit lists of rows passed in and out;
SQLAlchemy queries become `List.find?` / `List.filter` over those rows;
`bot.send_message` and external API calls become boolean "success" oracles
plus an explicit trace of the messages and API calls performed, so that
"no message is sent" is a statement about that trace.  Wall-clock instants
are integers (seconds); wall-clock times of day are naturals counting
minutes after midnight (`datetime.time` comparison is lexicographic on
(hour, minute), which is exactly the numeric order on total minutes).
-/

/-- Embeds `ReminderScheduler._is_quiet_hours` (src/scheduler.py:571-586).
Both bounds must be present; when `quiet_from > quiet_to` the window wraps
midnight (`now >= quiet_from or now < quiet_to`), otherwise it is the
half-open window `quiet_from <= now < quiet_to`. -/
def scheduler_is_quiet_hours (now : Nat) (quiet_from quiet_to : Option Nat) : Bool :=
  match quiet_from, quiet_to with
  | some f, some t =>
      if f > t then decide (now ≥ f) || decide (now < t)
      else decide (f ≤ now) && decide (now < t)
  | _, _ => false

/-- Embeds `is_in_quiet_hours` (src/handlers/habits.py:695-704).  Unlike the
scheduler's version, both comparisons against `quiet_to` are inclusive
(`current_time <= quiet_to` in the wrap case, `quiet_from <= current_time <=
quiet_to` otherwise). -/
def is_in_quiet_hours (now : Nat) (quiet_from quiet_to : Option Nat) : Bool :=
  match quiet_from, quiet_to with
  | some f, some t =>
      if f > t then decide (now ≥ f) || decide (now ≤ t)
      else decide (f ≤ now) && decide (now ≤ t)
  | _, _ => false

/-- The quiet-hours window semantics as the spec states it (spec §4.1 and C1):
absent bound gives false; `quiet_from <= quiet_to` gives the half-open window
`[quiet_from, quiet_to)`; `quiet_from > quiet_to` wraps midnight with
`now >= quiet_from OR now < quiet_to`.  Written from the spec's words, to be
compared with the functions embedded from the source. -/
def specQuietWindow (now : Nat) (quiet_from quiet_to : Option Nat) : Bool :=
  match quiet_from, quiet_to with
  | some f, some t =>
      if f ≤ t then decide (f ≤ now) && decide (now < t)
      else decide (now ≥ f) || decide (now < t)
  | _, _ => false

/-- The window semantics actually implemented by the handlers' function: like
`specQuietWindow` but with `quiet_to` included in the window on both the
same-day and the wrapped branch. -/
def specQuietWindowInclusive (now : Nat) (quiet_from quiet_to : Option Nat) : Bool :=
  match quiet_from, quiet_to with
  | some f, some t =>
      if f ≤ t then decide (f ≤ now) && decide (now ≤ t)
      else decide (now ≥ f) || decide (now ≤ t)
  | _, _ => false

/-- A cron-style trigger as the code constructs it: optional day-of-week
field (the comma-joined digit string passed to `CronTrigger(day_of_week=…)`,
here as a character list), and an hour/minute pair.  Hour and minute are
integers because the pre-generation arithmetic in the source manipulates
them as Python ints before the trigger is built. -/
structure CronTrigger where
  day_of_week : Option (List Char)
  hour : Int
  minute : Int
deriving DecidableEq, Repr

/-- A registered job: its string id and its trigger. -/
structure Job where
  id : String
  trigger : CronTrigger
deriving DecidableEq, Repr

/-- The apscheduler job table.  Ids are unique (maintained by `addJob`). -/
abbrev Registry := List Job

/-- `scheduler.add_job(..., id=jid, replace_existing=True)`: atomically
replaces any job registered under the same id. -/
def addJob (r : Registry) (j : Job) : Registry :=
  j :: r.filter (fun x => x.id != j.id)

/-- `scheduler.remove_job(jid)` (the code always guards it with `get_job`,
so removing an absent id never happens; as a filter it is a no-op then). -/
def removeJob (r : Registry) (jid : String) : Registry :=
  r.filter (fun x => x.id != jid)

/-- `scheduler.get_job(jid)`. -/
def getJob (r : Registry) (jid : String) : Option Job :=
  r.find? (fun x => x.id == jid)

/-- A `users` row, restricted to the fields the scheduling core reads. -/
structure User where
  user_id : Nat
  morning_ping_time : Option (Nat × Nat)
  evening_ping_time : Option (Nat × Nat)
  quiet_hours_from : Option Nat
  quiet_hours_to : Option Nat
deriving DecidableEq, Repr

/-- A `habits` row, restricted to the fields the scheduling core reads.
`rrule` is kept as its character sequence because the source parses it
character by character (`split(";")`, `split("=")`, `split(",")`). -/
structure Habit where
  id : Nat
  user_id : Nat
  schedule_type : String
  rrule : Option (List Char)
  time_of_day : Option (Nat × Nat)
  active : Bool
  include_content : Bool
  template_id : Option Nat
deriving DecidableEq, Repr

/-- A `habit_templates` row (only the category matters to the core). -/
structure HabitTemplate where
  id : Nat
  category : String
deriving DecidableEq, Repr

/-- A `habit_completions` row. -/
structure HabitCompletion where
  habit_id : Nat
  user_id : Nat
  completion_date : Nat
  status : String
deriving DecidableEq, Repr

/-- The persisted store visible to the habit scheduling core. -/
structure DB where
  users : List User
  habits : List Habit
  completions : List HabitCompletion
deriving DecidableEq, Repr

/-- Python's `s.split(c)` for a single-character separator, on character
lists (structural recursion, so that concrete runs reduce in the kernel). -/
def splitOnChar (c : Char) : List Char → List (List Char)
  | [] => [[]]
  | x :: xs =>
      let r := splitOnChar c xs
      if x = c then [] :: r
      else
        match r with
        | [] => [[x]]
        | y :: ys => (x :: y) :: ys

/-- The `days_map = {"MO": 0, …, "SU": 6}` dictionary of
`_schedule_habit_reminder`, returning the digit character that
`str(days_map[day])` contributes to the joined `day_of_week` string. -/
def days_map : List Char → Option Char
  | ['M', 'O'] => some '0'
  | ['T', 'U'] => some '1'
  | ['W', 'E'] => some '2'
  | ['T', 'H'] => some '3'
  | ['F', 'R'] => some '4'
  | ['S', 'A'] => some '5'
  | ['S', 'U'] => some '6'
  | _ => none

/-- Python's `",".join(pieces)` on character lists. -/
def joinWithComma : List (List Char) → List Char
  | [] => []
  | [x] => x
  | x :: xs => x ++ ',' :: joinWithComma xs

/-- The `BYDAY=` extraction of `_schedule_habit_reminder`
(src/scheduler.py:176-178): take the parts of the RRULE split on `;` that
start with `BYDAY=`, and if any exists return the text after the first `=`
of the first such part. -/
def parseBydayPart (rr : List Char) : Option (List Char) :=
  match (splitOnChar ';' rr).filter (fun p => ['B', 'Y', 'D', 'A', 'Y', '='].isPrefixOf p) with
  | [] => none
  | p :: _ => some ((splitOnChar '=' p).getD 1 [])

/-- The `day_of_week` string built at src/scheduler.py:180-183: map each
day code through `days_map`, dropping unknown codes, and join with commas. -/
def parsedWeekdayField (daysStr : List Char) : List Char :=
  joinWithComma (((splitOnChar ',' daysStr).filterMap days_map).map (fun c => [c]))

/-- The 5-minute borrow computation of `_schedule_habit_reminder`
(src/scheduler.py:159-167, repeated at 193-200 and 217-224): subtract 5 from
the minutes; on a negative result add 60 and borrow one hour; if the hour
goes negative add 24. -/
def pregenTime (hour minute : Int) : Int × Int :=
  let pm := minute - 5
  if pm < 0 then
    let pm2 := pm + 60
    let ph := hour - 1
    if ph < 0 then (ph + 24, pm2) else (ph, pm2)
  else (hour, pm)

/-- The trigger pair (reminder trigger, pre-generation trigger) that
`_schedule_habit_reminder` computes before registering jobs
(src/scheduler.py:151-226).  `none` models every path on which no job is
registered: missing time-of-day, unknown schedule type, a weekly habit whose
RRULE has no `BYDAY=` part (the trigger stays `None`), and a weekly habit
whose `BYDAY=` value maps to an empty day set (`CronTrigger` raises, the
exception is caught and the function returns). -/
def buildTriggers (habit : Habit) : Option (CronTrigger × CronTrigger) :=
  match habit.time_of_day with
  | none => none
  | some (h, m) =>
      let pp := pregenTime (h : Int) (m : Int)
      if habit.schedule_type == "daily" then
        some (⟨none, (h : Int), (m : Int)⟩, ⟨none, pp.1, pp.2⟩)
      else if habit.schedule_type == "weekly" then
        match habit.rrule with
        | some rr =>
            match parseBydayPart rr with
            | none => none
            | some daysStr =>
                let dow := parsedWeekdayField daysStr
                if dow.isEmpty then none
                else some (⟨some dow, (h : Int), (m : Int)⟩, ⟨some dow, pp.1, pp.2⟩)
        | none => some (⟨none, (h : Int), (m : Int)⟩, ⟨none, pp.1, pp.2⟩)
      else none

/-- The job id `f"habit_{habit.id}_user_{user.user_id}"`. -/
def habitJobId (hid uid : Nat) : String :=
  s!"habit_{hid}_user_{uid}"

/-- The job id `f"pregen_{habit.id}_user_{user.user_id}"`. -/
def pregenJobId (hid uid : Nat) : String :=
  s!"pregen_{hid}_user_{uid}"

/-- The job id `f"morning_ping_{user.user_id}"`. -/
def morningPingJobId (uid : Nat) : String :=
  s!"morning_ping_{uid}"

/-- The job id `f"evening_report_{user.user_id}"`. -/
def eveningReportJobId (uid : Nat) : String :=
  s!"evening_report_{uid}"

/-- Embeds `ReminderScheduler._schedule_habit_reminder`
(src/scheduler.py:135-258) as its effect on the job table: return unchanged
if the habit has no time of day or is inactive; otherwise remove any prior
reminder and pre-generation jobs, then, if a trigger pair was built, register
the reminder job and — only when `habit.include_content` — the
pre-generation job.  Note that registration never consults the habit's
template or its category. -/
def schedule_habit_reminder (r : Registry) (user : User) (habit : Habit) : Registry :=
  if habit.time_of_day.isNone || !habit.active then r
  else
    let jid := habitJobId habit.id user.user_id
    let pjid := pregenJobId habit.id user.user_id
    let r1 := removeJob r jid
    let r2 := removeJob r1 pjid
    match buildTriggers habit with
    | none => r2
    | some (trig, ptrig) =>
        let r3 := addJob r2 ⟨jid, trig⟩
        if habit.include_content then addJob r3 ⟨pjid, ptrig⟩ else r3

/-- Embeds `ReminderScheduler.schedule_user_reminders` (src/scheduler.py:54-81):
look the user up; if present, (re)register the morning-ping and
evening-report jobs when configured, then re-run `_schedule_habit_reminder`
for every habit of the user that is currently active.  Habits that are
inactive (or deleted) are not visited at all. -/
def schedule_user_reminders (db : DB) (r : Registry) (uid : Nat) : Registry :=
  match db.users.find? (fun u => u.user_id == uid) with
  | none => r
  | some user =>
      let r1 := match user.morning_ping_time with
        | some hm => addJob r ⟨morningPingJobId uid, ⟨none, (hm.1 : Int), (hm.2 : Int)⟩⟩
        | none => r
      let r2 := match user.evening_ping_time with
        | some hm => addJob r1 ⟨eveningReportJobId uid, ⟨none, (hm.1 : Int), (hm.2 : Int)⟩⟩
        | none => r1
      (db.habits.filter (fun h => h.user_id == uid && h.active)).foldl
        (fun acc h => schedule_habit_reminder acc user h) r2

/-- What one firing of the pre-generation job does. -/
inductive PregenOutcome
  /-- Habit missing, inactive, or not wanting content: return immediately. -/
  | missingOrInactive
  /-- The habit's template category is `language_reading` or
  `language_grammar`: log and return without generating anything. -/
  | languageSkipped
  /-- Content is generated through the LLM service. -/
  | generated
deriving DecidableEq, Repr

/-- Embeds `ReminderScheduler._pregenerate_habit_content`
(src/scheduler.py:260-298): reload the habit; no-op if missing, inactive or
not wanting content; resolve the template; skip generation entirely for the
language categories; otherwise generate. -/
def pregenerate_habit_content (habits : List Habit) (templates : List HabitTemplate)
    (hid : Nat) : PregenOutcome :=
  match habits.find? (fun h => h.id == hid) with
  | none => .missingOrInactive
  | some habit =>
      if !habit.active || !habit.include_content then .missingOrInactive
      else
        match habit.template_id.bind (fun tid => templates.find? (fun t => t.id == tid)) with
        | some t =>
            if t.category == "language_reading" || t.category == "language_grammar" then
              .languageSkipped
            else .generated
        | none => .generated

/-- Embeds `check_duplicate_completion` (src/handlers/habits.py:707-719):
is there an existing `done` completion row for this user, habit and date? -/
def check_duplicate_completion (completions : List HabitCompletion)
    (uid hid d : Nat) : Bool :=
  completions.any (fun c =>
    c.user_id == uid && c.habit_id == hid && c.completion_date == d && c.status == "done")

/-- The user-visible outcome of the `H_D` (done) callback. -/
inductive DoneResult
  /-- `callback.answer("Привычка не найдена")`: the habit does not exist. -/
  | habitNotFound
  /-- `"Уже записал это достижение"`: duplicate detected, nothing inserted. -/
  | alreadyRecorded
  /-- A new `done` completion row was inserted and confirmed. -/
  | recorded
deriving DecidableEq, Repr

/-- Embeds `habit_done_callback` (src/handlers/habits.py:724-771): look the
habit up; check for an existing `done` row for the same (user, habit, date)
and short-circuit without inserting ("already recorded"); otherwise append a
new `done` completion row. -/
def habit_done_callback (habits : List Habit) (completions : List HabitCompletion)
    (uid hid d : Nat) : List HabitCompletion × DoneResult :=
  match habits.find? (fun h => h.id == hid) with
  | none => (completions, .habitNotFound)
  | some _ =>
      if check_duplicate_completion completions uid hid d then
        (completions, .alreadyRecorded)
      else
        (completions ++ [⟨hid, uid, d, "done"⟩], .recorded)

/-- The number of stored `done` completion rows for one (user, habit, date). -/
def doneCount (completions : List HabitCompletion) (uid hid d : Nat) : Nat :=
  (completions.filter (fun c =>
    c.user_id == uid && c.habit_id == hid && c.completion_date == d && c.status == "done")).length

/-- Embeds `habit_toggle_callback` (src/handlers/habits.py:858-891) with the
scheduler argument present: set `habit.active` from the action, commit, and
call `schedule_user_reminders` for the user.  Nothing else touches the job
table. -/
def habit_toggle_callback (db : DB) (r : Registry) (callerId hid : Nat)
    (action : String) : DB × Registry :=
  match db.habits.find? (fun h => h.id == hid) with
  | none => (db, r)
  | some h =>
      if h.user_id != callerId then (db, r)
      else
        let habits2 := db.habits.map (fun x =>
          if x.id == hid then { x with active := action == "on" } else x)
        let db2 : DB := { db with habits := habits2 }
        (db2, schedule_user_reminders db2 r callerId)

/-- Embeds `habit_delete_confirm_callback` (src/handlers/habits.py:933-971)
with the scheduler argument present: delete the habit's completion rows and
the habit itself, commit, and call `schedule_user_reminders` for the user. -/
def habit_delete_confirm_callback (db : DB) (r : Registry) (callerId hid : Nat) :
    DB × Registry :=
  match db.habits.find? (fun h => h.id == hid) with
  | none => (db, r)
  | some h =>
      if h.user_id != callerId then (db, r)
      else
        let db2 : DB := { db with
          habits := db.habits.filter (fun x => x.id != hid),
          completions := db.completions.filter (fun c => c.habit_id != hid) }
        (db2, schedule_user_reminders db2 r callerId)

/-- Python's `needle in haystack` substring test on strings. -/
def pyIn (needle haystack : String) : Bool :=
  (List.range (haystack.data.length + 1)).any
    (fun i => needle.data.isPrefixOf (haystack.data.drop i))

/-- Embeds `ReminderScheduler.remove_user_jobs` (src/scheduler.py:588-599):
collect every registered job whose id contains the decimal representation of
the user id as a substring, and remove those jobs (ids are unique in the
table, so the two-pass collect-then-remove of the source is the filter). -/
def remove_user_jobs (r : Registry) (uid : Nat) : Registry :=
  r.filter (fun j => !(pyIn (toString uid) j.id))

/-- A `delegated_tasks` row. -/
structure DelegatedTask where
  id : Nat
  task_id : Nat
  assigned_by_user_id : Nat
  assigned_to_user_id : Nat
  status : String
  deadline : Int
  created_at : Int
  reminder_count : Nat
  last_reminder_at : Option Int
deriving DecidableEq, Repr

/-- The kind of message a sweep run sends. -/
inductive DMsgTag
  | halfway
  | oneDayLeft
  | dueToday
  | overdueToAssignee
  | overdueToAssigner
deriving DecidableEq, Repr

/-- One message sent by the delegation sweep. -/
structure DMsg where
  tag : DMsgTag
  recipient : Nat
deriving DecidableEq, Repr

/-- The externally-determined outcomes of one `_process_reminder` call:
whether the task and both user rows resolve (`_send_*` returns early
otherwise), and whether each `bot.send_message` call succeeds (a raise is
caught, and then neither `reminder_count` nor `last_reminder_at` is
updated).  `sendOk2` is the second send of the overdue path (to the
assigner). -/
structure SweepEnv where
  lookupOk : Bool
  sendOk : Bool
  sendOk2 : Bool
deriving DecidableEq, Repr

/-- Embeds `_send_halfway_reminder`, `_send_one_day_reminder` and
`_send_today_reminder` (src/delegation_reminders.py:61-135), which share
their control flow and differ only in message text: return early when the
task or either user row is missing; send to the assignee; on success
increment `reminder_count` by one and stamp `last_reminder_at`. -/
def sendTierReminder (t : DelegatedTask) (now : Int) (env : SweepEnv) (tag : DMsgTag) :
    DelegatedTask × List DMsg :=
  if !env.lookupOk then (t, [])
  else if env.sendOk then
    ({ t with reminder_count := t.reminder_count + 1, last_reminder_at := some now },
     [⟨tag, t.assigned_to_user_id⟩])
  else (t, [])

/-- Embeds `_send_overdue_reminder` (src/delegation_reminders.py:137-194):
return early when the task or either user row is missing; set the status to
`overdue` if it is not already; suppress when the last reminder is less than
one day old; otherwise send to the assignee and then to the assigner, and on
full success increment `reminder_count` and stamp `last_reminder_at`. -/
def send_overdue_reminder (t : DelegatedTask) (now : Int) (env : SweepEnv) :
    DelegatedTask × List DMsg :=
  if !env.lookupOk then (t, [])
  else
    let t1 := if t.status != "overdue" then { t with status := "overdue" } else t
    let suppressed := match t1.last_reminder_at with
      | some last => decide (now - last < 86400)
      | none => false
    if suppressed then (t1, [])
    else if env.sendOk then
      if env.sendOk2 then
        ({ t1 with reminder_count := t1.reminder_count + 1, last_reminder_at := some now },
         [⟨.overdueToAssignee, t1.assigned_to_user_id⟩, ⟨.overdueToAssigner, t1.assigned_by_user_id⟩])
      else (t1, [⟨.overdueToAssignee, t1.assigned_to_user_id⟩])
    else (t1, [])

/-- Embeds `_process_reminder` (src/delegation_reminders.py:32-59).  The
float comparison `progress = age/total >= 0.5` is modelled exactly over the
integers as `2 * age >= total` (equivalent for `total > 0`, which holds
whenever the deadline lies after creation).  `days_left` is
`timedelta.days`, i.e. floor division of the remaining seconds by 86400. -/
def process_reminder (t : DelegatedTask) (now : Int) (env : SweepEnv) :
    DelegatedTask × List DMsg :=
  if t.deadline - now < 0 then send_overdue_reminder t now env
  else
    let age := now - t.created_at
    let total := t.deadline - t.created_at
    let days_left := Int.fdiv (t.deadline - now) 86400
    if decide (2 * age ≥ total) && t.reminder_count == 0 then
      sendTierReminder t now env .halfway
    else if decide (days_left = 1) && decide (t.reminder_count < 2) then
      sendTierReminder t now env .oneDayLeft
    else if decide (days_left = 0) && decide (t.reminder_count < 3) then
      sendTierReminder t now env .dueToday
    else (t, [])

/-- The effect of one sweep run on one task: `check_and_send_reminders`
queries only tasks with `status == "accepted"`, so any other task is left
untouched and receives nothing. -/
def sweepTask (t : DelegatedTask) (now : Int) (env : SweepEnv) :
    DelegatedTask × List DMsg :=
  if t.status == "accepted" then process_reminder t now env else (t, [])

/-- Embeds `check_and_send_reminders` (src/delegation_reminders.py:17-30):
one sweep run over the whole task table at instant `now`. -/
def check_and_send_reminders (tasks : List DelegatedTask) (now : Int) (env : SweepEnv) :
    List DelegatedTask × List DMsg :=
  let results := tasks.map (fun t => sweepTask t now env)
  (results.map Prod.fst, (results.map Prod.snd).flatten)

/-- A sequence of sweep runs acting on one task: each list element is the
run's wall-clock instant and its external outcomes. -/
def runSweeps (t : DelegatedTask) : List (Int × SweepEnv) → DelegatedTask × List DMsg
  | [] => (t, [])
  | (now, env) :: rest =>
      let step := sweepTask t now env
      let later := runSweeps step.1 rest
      (later.1, step.2 ++ later.2)

/-- How many halfway messages a message trace contains. -/
def halfwayCount (msgs : List DMsg) : Nat :=
  (msgs.filter (fun m => m.tag == DMsgTag.halfway)).length

/-- A `language_habits` row. -/
structure LanguageHabit where
  id : Nat
  user_id : Nat
  habit_type : String
  is_active : Bool
  current_book_id : Option Nat
  daily_goal : Nat
deriving DecidableEq, Repr

/-- The fragment payload stored by the audio stage in
`progress.extra_data["pending_fragment"]`. -/
structure FragmentData where
  text : String
  book_title : String
deriving DecidableEq, Repr

/-- A `language_progress` row (one per habit per calendar day). -/
structure LanguageProgress where
  habit_id : Nat
  day : Nat
  words_read : Nat
  fragments_read : Nat
  audio_sent : Bool
  text_sent : Bool
  text_sent_at : Option Nat
  questions_sent : Bool
  questions_sent_at : Option Nat
  questions_total : Nat
  pending_fragment : Option FragmentData
  stored_questions : List String
deriving DecidableEq, Repr

/-- The language tables the workflow stages read and write. -/
structure LangState where
  habits : List LanguageHabit
  progresses : List LanguageProgress
deriving DecidableEq, Repr

/-- The query for the user's active reading habit used by every stage. -/
def findReadingHabit (habits : List LanguageHabit) (uid : Nat) : Option LanguageHabit :=
  habits.find? (fun h => h.user_id == uid && h.habit_type == "reading" && h.is_active)

/-- The query for today's progress row of one habit. -/
def findTodayProgress (progresses : List LanguageProgress) (hid day : Nat) :
    Option LanguageProgress :=
  progresses.find? (fun p => p.habit_id == hid && p.day == day)

/-- Apply an update to today's progress row of one habit (ORM mutation plus
commit). -/
def updateProgress (ps : List LanguageProgress) (hid day : Nat)
    (f : LanguageProgress → LanguageProgress) : List LanguageProgress :=
  ps.map (fun p => if p.habit_id == hid && p.day == day then f p else p)

/-- A message sent by a language workflow stage. -/
inductive LMsg
  /-- The "goal already reached" congratulation of the text stage. -/
  | readingGoalDone (uid : Nat)
  /-- The text-stage reminder (book, goal, words left, `/read` prompt). -/
  | readingReminder (uid : Nat)
  /-- The comprehension-questions message. -/
  | questions (uid : Nat) (count : Nat)
deriving DecidableEq, Repr

/-- An outbound Language-API request made by a stage. -/
inductive ApiCall
  /-- `api.read_next(book_id, length)`: fetch the next fragment, advancing
  the book position. -/
  | readNext (bookId : Nat)
  /-- `api.get_comprehension_questions(book_id, fragment_text, count)`. -/
  | comprehensionQuestions (bookId : Nat)
deriving DecidableEq, Repr

/-- Embeds `LanguageReminderService._send_reading_reminder`
(src/language_scheduler.py:61-129), the text stage: look up the active
reading habit; read today's progress row; if the daily goal is already met
(`words_left = max(0, goal - words_read) = 0`, which is truncated
subtraction on naturals) send the congratulation; otherwise send the
reminder message and, when a progress row exists, mark `text_sent` with the
current timestamp.  The function performs no Language-API call and never
touches `words_read`, `fragments_read` or the stored fragment; a failed send
(exception caught) leaves the row unchanged. -/
def send_reading_reminder (st : LangState) (uid today now : Nat) (sendOk : Bool) :
    LangState × List LMsg × List ApiCall :=
  match findReadingHabit st.habits uid with
  | none => (st, [], [])
  | some habit =>
      let progressQ := findTodayProgress st.progresses habit.id today
      let words_today := match progressQ with
        | some p => p.words_read
        | none => 0
      let words_left := habit.daily_goal - words_today
      if words_left == 0 then
        if sendOk then (st, [LMsg.readingGoalDone uid], []) else (st, [], [])
      else
        if sendOk then
          match progressQ with
          | some _ =>
              ({ st with progresses := (updateProgress st.progresses habit.id today
                  (fun p => { p with text_sent := true, text_sent_at := some now })) },
               [LMsg.readingReminder uid], [])
          | none => (st, [LMsg.readingReminder uid], [])
        else (st, [], [])

/-- Embeds `LanguageReminderService._send_comprehension_questions`
(src/language_scheduler.py:431-515), the questions stage: look up the
active reading habit and its book; read today's progress row; return before
doing anything when the row is absent, when `text_sent` is false, or when
`questions_sent` is already true; return when no API client is configured;
otherwise call the API (`apiQuestions = none` models a raised and caught
API error), give up on an empty question list, send the questions and on
success mark `questions_sent` with timestamp, question count and the stored
question set. -/
def send_comprehension_questions (st : LangState) (uid today now : Nat)
    (apiAvailable : Bool) (apiQuestions : Option (List String)) (sendOk : Bool) :
    LangState × List LMsg × List ApiCall :=
  match findReadingHabit st.habits uid with
  | none => (st, [], [])
  | some habit =>
      match habit.current_book_id with
      | none => (st, [], [])
      | some bookId =>
          match findTodayProgress st.progresses habit.id today with
          | none => (st, [], [])
          | some progress =>
              if !progress.text_sent then (st, [], [])
              else if progress.questions_sent then (st, [], [])
              else if !apiAvailable then (st, [], [])
              else
                match apiQuestions with
                | none => (st, [], [ApiCall.comprehensionQuestions bookId])
                | some questions =>
                    if questions.isEmpty then (st, [], [ApiCall.comprehensionQuestions bookId])
                    else if sendOk then
                      ({ st with progresses := (updateProgress st.progresses habit.id today
                          (fun p => { p with
                            questions_sent := true,
                            questions_sent_at := some now,
                            questions_total := questions.length,
                            stored_questions := questions })) },
                       [LMsg.questions uid questions.length],
                       [ApiCall.comprehensionQuestions bookId])
                    else (st, [], [ApiCall.comprehensionQuestions bookId])

/-- A user with no ping times and no quiet hours, owner of the demo habits. -/
def demoUser : User := ⟨3, none, none, none, none⟩

/-- An active daily habit at 08:00 wanting generated content. -/
def demoHabit : Habit := ⟨5, 3, "daily", none, some (8, 0), true, true, none⟩

/-- The store holding `demoUser` and `demoHabit`. -/
def demoDB : DB := ⟨[demoUser], [demoHabit], []⟩

/-- The job table after `schedule_user_reminders` has run for `demoUser`:
it holds the reminder and pre-generation jobs of `demoHabit`. -/
def demoRegistry : Registry := schedule_user_reminders demoDB [] 3

/-- A template table with one `language_reading` template. -/
def langTemplates : List HabitTemplate := [⟨1, "language_reading"⟩]

/-- An active daily habit bound to the `language_reading` template, with the
wants-generated-content flag set. -/
def langHabit : Habit := ⟨7, 3, "daily", none, some (9, 30), true, true, some 1⟩

/-- A habit row used by the completion-idempotence witness. -/
def demoDoneHabit : Habit := ⟨5, 1, "daily", none, some (8, 0), true, false, none⟩

/-- A delegated task accepted at t = 0 with deadline t = 432000 (day 5). -/
def odTask : DelegatedTask := ⟨1, 10, 100, 200, "accepted", 432000, 0, 0, none⟩

/-- A sweep environment in which every lookup and every send succeeds. -/
def allOk : SweepEnv := ⟨true, true, true⟩

/-- A delegated task accepted at t = 0 with deadline t = 864000 (day 10),
no reminder sent yet. -/
def hwTask : DelegatedTask := ⟨2, 11, 100, 200, "accepted", 864000, 0, 0, none⟩

/-- An active weekly habit (Monday and Wednesday) at 00:03, so that the
5-minute offset wraps across midnight. -/
def wHabit : Habit :=
  ⟨11, 3, "weekly", some ("FREQ=WEEKLY;BYDAY=MO,WE".data), some (0, 3), true, true, none⟩

/-- An active reading language habit of user 7 with a selected book and a
100-word daily goal. -/
def rHabit : LanguageHabit := ⟨1, 7, "reading", true, some 42, 100⟩

/-- Today's progress row for `rHabit`: audio was sent, no words read yet,
`text_sent` still false, no stored fragment. -/
def rProgress : LanguageProgress :=
  ⟨1, 20251020, 0, 0, true, false, none, false, none, 0, none, []⟩

/-- The language store holding `rHabit` and `rProgress`. -/
def rState : LangState := ⟨[rHabit], [rProgress]⟩

/-- A job of user 21 whose id contains the digit 3 (as the habit id). -/
def crossJob : Job := ⟨habitJobId 3 21, ⟨none, 8, 0⟩⟩

/-- C1 counterexample: at `now = quiet_to` with a same-day window
(09:00-17:00, now 17:00), the handlers' `is_in_quiet_hours` answers true,
while the spec's half-open window semantics answers false, so the two
quiet-hours functions do not both implement the claimed semantics. -/
theorem C1_counterexample :
    is_in_quiet_hours 1020 (some 540) (some 1020) = true ∧
    specQuietWindow 1020 (some 540) (some 1020) = false := by
  decide

/-- C1 (amended): the scheduler's `_is_quiet_hours` implements exactly the
spec's window semantics (absent bound gives false; half-open `[from, to)`
same-day window; wrapped window `now >= from OR now < to`), while the
handlers' `is_in_quiet_hours` implements the variant that also includes
`now = quiet_to` in the window on both branches. -/
theorem C1_quiet_hours_semantics :
    (∀ now quiet_from quiet_to,
        scheduler_is_quiet_hours now quiet_from quiet_to =
          specQuietWindow now quiet_from quiet_to) ∧
    (∀ now quiet_from quiet_to,
        is_in_quiet_hours now quiet_from quiet_to =
          specQuietWindowInclusive now quiet_from quiet_to) := by
  constructor
  · intro now qf qt
    rcases qf with _ | f <;> rcases qt with _ | t <;>
      simp only [scheduler_is_quiet_hours, specQuietWindow]
    by_cases h : f ≤ t
    · rw [if_pos h, if_neg (show ¬ f > t from by omega)]
    · rw [if_neg h, if_pos (show f > t from by omega)]
  · intro now qf qt
    rcases qf with _ | f <;> rcases qt with _ | t <;>
      simp only [is_in_quiet_hours, specQuietWindowInclusive]
    by_cases h : f ≤ t
    · rw [if_pos h, if_neg (show ¬ f > t from by omega)]
    · rw [if_neg h, if_pos (show f > t from by omega)]

/-- The duplicate check answers true exactly when the stored `done` count
for the (user, habit, date) triple is nonzero. -/
theorem check_dup_iff (cs : List HabitCompletion) (uid hid d : Nat) :
    check_duplicate_completion cs uid hid d = (doneCount cs uid hid d != 0) := by
  unfold check_duplicate_completion doneCount
  induction cs with
  | nil => rfl
  | cons c cs ih =>
      simp only [List.any_cons, List.filter_cons]
      by_cases h :
          (c.user_id == uid && c.habit_id == hid &&
            c.completion_date == d && c.status == "done") = true
      · simp [h]
      · simp only [Bool.not_eq_true] at h
        simp [h, ih]

/-- `doneCount` distributes over appending rows. -/
theorem doneCount_append (cs cs' : List HabitCompletion) (uid hid d : Nat) :
    doneCount (cs ++ cs') uid hid d = doneCount cs uid hid d + doneCount cs' uid hid d := by
  simp [doneCount, List.filter_append]

/-- C2: marking a habit done is idempotent per (obligation, date).  From a
store with no `done` row for the pair, the first `H_D` callback records the
completion; the second detects the duplicate and answers "already recorded"
without inserting anything (and without raising — it returns the
`alreadyRecorded` response), leaving exactly one stored `done` row for the
pair. -/
theorem C2_mark_done_idempotent (habits : List Habit) (cs : List HabitCompletion)
    (uid hid d : Nat)
    (hfound : (habits.find? (fun h => h.id == hid)).isSome = true)
    (hclean : doneCount cs uid hid d = 0) :
    (habit_done_callback habits cs uid hid d).2 = DoneResult.recorded ∧
    doneCount (habit_done_callback habits cs uid hid d).1 uid hid d = 1 ∧
    (habit_done_callback habits (habit_done_callback habits cs uid hid d).1 uid hid d).2 =
      DoneResult.alreadyRecorded ∧
    (habit_done_callback habits (habit_done_callback habits cs uid hid d).1 uid hid d).1 =
      (habit_done_callback habits cs uid hid d).1 := by
  obtain ⟨hb, hhb⟩ := Option.isSome_iff_exists.mp hfound
  have hdup0 : check_duplicate_completion cs uid hid d = false := by
    rw [check_dup_iff, hclean]
    rfl
  have h1 : habit_done_callback habits cs uid hid d =
      (cs ++ [⟨hid, uid, d, "done"⟩], .recorded) := by
    unfold habit_done_callback
    rw [hhb, hdup0]
    simp
  have hcount1 : doneCount (cs ++ [⟨hid, uid, d, "done"⟩]) uid hid d = 1 := by
    rw [doneCount_append, hclean]
    simp [doneCount]
  have hdup1 : check_duplicate_completion (cs ++ [⟨hid, uid, d, "done"⟩]) uid hid d = true := by
    rw [check_dup_iff, hcount1]
    rfl
  have h2 : habit_done_callback habits (cs ++ [⟨hid, uid, d, "done"⟩]) uid hid d =
      (cs ++ [⟨hid, uid, d, "done"⟩], .alreadyRecorded) := by
    unfold habit_done_callback
    rw [hhb, hdup1]
    simp
  rw [h1]
  simp [h2, hcount1]

/-- C2 witness: the idempotence theorem applied to habit 5, user 1,
date 2025-10-20 on an empty completion table. -/
theorem C2_mark_done_idempotent_witness :
    doneCount [] 1 5 20251020 = 0 ∧
    ((habit_done_callback [demoDoneHabit] [] 1 5 20251020).2 = DoneResult.recorded ∧
     doneCount (habit_done_callback [demoDoneHabit] [] 1 5 20251020).1 1 5 20251020 = 1 ∧
     (habit_done_callback [demoDoneHabit]
        (habit_done_callback [demoDoneHabit] [] 1 5 20251020).1 1 5 20251020).2 =
       DoneResult.alreadyRecorded ∧
     (habit_done_callback [demoDoneHabit]
        (habit_done_callback [demoDoneHabit] [] 1 5 20251020).1 1 5 20251020).1 =
       (habit_done_callback [demoDoneHabit] [] 1 5 20251020).1) :=
  ⟨by decide, C2_mark_done_idempotent [demoDoneHabit] [] 1 5 20251020 (by decide) (by decide)⟩

/-- C3: the claim fails on the code.  With `demoHabit` scheduled (both its
reminder job and its pre-generation job live in `demoRegistry`), toggling
the habit off (`H_TOGGLE:5:off`) and deleting it (`H_DEL_CONFIRM:5`) each
leave both jobs registered: the handlers only call
`schedule_user_reminders`, which iterates the user's *active* habits and
never removes jobs of habits that are now inactive or deleted. -/
theorem C3_stale_jobs_after_toggle_and_delete :
    (getJob demoRegistry (habitJobId 5 3)).isSome = true ∧
    (getJob demoRegistry (pregenJobId 5 3)).isSome = true ∧
    ((habit_toggle_callback demoDB demoRegistry 3 5 "off").1.habits.all
      (fun h => !h.active)) = true ∧
    (getJob (habit_toggle_callback demoDB demoRegistry 3 5 "off").2
      (habitJobId 5 3)).isSome = true ∧
    (getJob (habit_toggle_callback demoDB demoRegistry 3 5 "off").2
      (pregenJobId 5 3)).isSome = true ∧
    (habit_delete_confirm_callback demoDB demoRegistry 3 5).1.habits = [] ∧
    (getJob (habit_delete_confirm_callback demoDB demoRegistry 3 5).2
      (habitJobId 5 3)).isSome = true ∧
    (getJob (habit_delete_confirm_callback demoDB demoRegistry 3 5).2
      (pregenJobId 5 3)).isSome = true := by
  decide

/-- C4 counterexample: `langHabit` is bound to a `language_reading` template
and wants generated content, yet `_schedule_habit_reminder` registers its
pre-generation job — registration checks only `include_content` and never
the template category. -/
theorem C4_counterexample :
    (langHabit.template_id.bind (fun tid => langTemplates.find? (fun t => t.id == tid)) =
      some ⟨1, "language_reading"⟩) ∧
    langHabit.include_content = true ∧
    (getJob (schedule_habit_reminder [] demoUser langHabit) (pregenJobId 7 3)).isSome = true := by
  decide

/-- Looking a job up right after registering it finds it. -/
theorem getJob_addJob_self (r : Registry) (j : Job) : getJob (addJob r j) j.id = some j := by
  unfold getJob addJob
  exact List.find?_cons_of_pos _ (beq_self_eq_true j.id)

/-- A habit for which triggers were built has a time of day. -/
theorem buildTriggers_tod_isNone_false {habit : Habit} {x : CronTrigger × CronTrigger}
    (h : buildTriggers habit = some x) : habit.time_of_day.isNone = false := by
  unfold buildTriggers at h
  cases htod : habit.time_of_day with
  | none => rw [htod] at h; exact absurd h (by simp)
  | some v => simp [htod]

/-- C4 (amended): the scheduler registers the pre-generation job for every
active obligation with a valid trigger that wants generated content —
including language-category obligations; the language skip happens only at
fire time, where `_pregenerate_habit_content` resolves the template and
returns without generating anything when its category is `language_reading`
or `language_grammar`. -/
theorem C4_pregen_registration_and_fire_time_skip :
    (∀ (r : Registry) (user : User) (habit : Habit) (t pt : CronTrigger),
        buildTriggers habit = some (t, pt) → habit.active = true →
        habit.include_content = true →
        getJob (schedule_habit_reminder r user habit) (pregenJobId habit.id user.user_id) =
          some ⟨pregenJobId habit.id user.user_id, pt⟩) ∧
    (∀ (habits : List Habit) (templates : List HabitTemplate) (hid : Nat)
        (habit : Habit) (tpl : HabitTemplate),
        habits.find? (fun h => h.id == hid) = some habit →
        habit.active = true → habit.include_content = true →
        habit.template_id.bind (fun tid => templates.find? (fun x => x.id == tid)) = some tpl →
        (tpl.category == "language_reading" || tpl.category == "language_grammar") = true →
        pregenerate_habit_content habits templates hid = .languageSkipped) := by
  constructor
  · intro r user habit t pt hbt hact hinc
    have htod := buildTriggers_tod_isNone_false hbt
    unfold schedule_habit_reminder
    rw [htod, hact, hbt, hinc]
    simp only [Bool.not_true, Bool.or_false, if_false, if_true]
    exact getJob_addJob_self _ ⟨pregenJobId habit.id user.user_id, pt⟩
  · intro habits templates hid habit tpl hfind hact hinc htpl hcat
    unfold pregenerate_habit_content
    rw [hfind]
    simp [hact, hinc, htpl, hcat]

/-- C4 witness: the amended statement applied to `langHabit` (daily 09:30,
`language_reading` template, wants content). -/
theorem C4_pregen_registration_and_fire_time_skip_witness :
    getJob (schedule_habit_reminder [] demoUser langHabit) (pregenJobId 7 3) =
      some ⟨pregenJobId 7 3, ⟨none, 9, 25⟩⟩ ∧
    pregenerate_habit_content [langHabit] langTemplates 7 = .languageSkipped :=
  ⟨C4_pregen_registration_and_fire_time_skip.1 [] demoUser langHabit
      ⟨none, 9, 30⟩ ⟨none, 9, 25⟩ (by decide) (by decide) (by decide),
   C4_pregen_registration_and_fire_time_skip.2 [langHabit] langTemplates 7 langHabit
      ⟨1, "language_reading"⟩ (by decide) (by decide) (by decide) (by decide) (by decide)⟩

/-- C9: whenever `_schedule_habit_reminder` builds a trigger pair for a
habit at wall-clock time (h, m), the pre-generation trigger's minute-of-day
equals the reminder minute-of-day minus 5, modulo 24 hours — the borrow is
correct across the hour boundary and across midnight, and the result is a
well-formed time — and the pre-generation trigger carries exactly the same
day-of-week field as the reminder trigger (for weekly schedules, the same
weekday set). -/
theorem C9_pregen_offset :
    ∀ (habit : Habit) (h m : Nat) (t pt : CronTrigger),
      habit.time_of_day = some (h, m) → h < 24 → m < 60 →
      buildTriggers habit = some (t, pt) →
      pt.hour * 60 + pt.minute = ((h : Int) * 60 + (m : Int) - 5) % 1440 ∧
      0 ≤ pt.hour ∧ pt.hour < 24 ∧ 0 ≤ pt.minute ∧ pt.minute < 60 ∧
      pt.day_of_week = t.day_of_week := by
  intro habit h m t pt htod hh hm hbt
  unfold buildTriggers at hbt
  rw [htod] at hbt
  simp only [] at hbt
  rcases hpp : pregenTime (h : Int) (m : Int) with ⟨ph, pm⟩
  rw [hpp] at hbt
  have hppv : (ph * 60 + pm = ((h : Int) * 60 + (m : Int) - 5) % 1440 ∧
      0 ≤ ph ∧ ph < 24 ∧ 0 ≤ pm ∧ pm < 60) := by
    simp only [pregenTime] at hpp
    split at hpp
    · split at hpp
      · injection hpp with h1 h2
        omega
      · injection hpp with h1 h2
        omega
    · injection hpp with h1 h2
      omega
  split at hbt
  · injection hbt with hbt
    injection hbt with ht hpt
    subst hpt
    exact ⟨hppv.1, hppv.2.1, hppv.2.2.1, hppv.2.2.2.1, hppv.2.2.2.2, by rw [← ht]⟩
  · split at hbt
    · split at hbt
      · split at hbt
        · exact absurd hbt (by simp)
        · split at hbt
          · exact absurd hbt (by simp)
          · injection hbt with hbt
            injection hbt with ht hpt
            subst hpt
            exact ⟨hppv.1, hppv.2.1, hppv.2.2.1, hppv.2.2.2.1, hppv.2.2.2.2, by rw [← ht]⟩
      · injection hbt with hbt
        injection hbt with ht hpt
        subst hpt
        exact ⟨hppv.1, hppv.2.1, hppv.2.2.1, hppv.2.2.2.1, hppv.2.2.2.2, by rw [← ht]⟩
    · exact absurd hbt (by simp)

/-- C9 witness: the weekly Monday/Wednesday habit at 00:03 gets its
pre-generation trigger at 23:58 on the same weekday set. -/
theorem C9_pregen_offset_witness :
    buildTriggers wHabit =
      some (⟨some ['0', ',', '2'], 0, 3⟩, ⟨some ['0', ',', '2'], 23, 58⟩) ∧
    ((23 : Int) * 60 + 58 = ((0 : Int) * 60 + (3 : Int) - 5) % 1440 ∧
      (0 : Int) ≤ 23 ∧ (23 : Int) < 24 ∧ (0 : Int) ≤ 58 ∧ (58 : Int) < 60 ∧
      (some ['0', ',', '2'] : Option (List Char)) = some ['0', ',', '2']) :=
  ⟨by decide,
   C9_pregen_offset wHabit 0 3 ⟨some ['0', ',', '2'], 0, 3⟩ ⟨some ['0', ',', '2'], 23, 58⟩
     (by decide) (by decide) (by decide) (by decide)⟩

/-- C10: `remove_user_jobs u` keeps exactly the jobs whose id does not
contain the decimal representation of `u` as a substring; consequently any
registered job whose id contains that digit string — whoever owns it — is
removed. -/
theorem C10_remove_user_jobs_substring :
    (∀ (r : Registry) (uid : Nat) (j : Job),
        j ∈ remove_user_jobs r uid ↔ j ∈ r ∧ pyIn (toString uid) j.id = false) ∧
    (∀ (r : Registry) (u : Nat) (j : Job),
        j ∈ r → pyIn (toString u) j.id = true → j ∉ remove_user_jobs r u) := by
  have key : ∀ (r : Registry) (uid : Nat) (j : Job),
      j ∈ remove_user_jobs r uid ↔ j ∈ r ∧ pyIn (toString uid) j.id = false := by
    intro r uid j
    simp [remove_user_jobs, List.mem_filter]
  refine ⟨key, ?_⟩
  intro r u j hmem hsub hcontra
  rw [key] at hcontra
  rw [hcontra.2] at hsub
  exact Bool.noConfusion hsub

/-- C10 witness: `crossJob` is the habit-5-style job `habit_3_user_21` of
user 21; `remove_user_jobs` for the distinct user 3 removes it, because
"3" occurs inside its id (as the habit id). -/
theorem C10_remove_user_jobs_substring_witness :
    crossJob ∈ [crossJob] ∧ pyIn (toString 3) crossJob.id = true ∧
    crossJob ∉ remove_user_jobs [crossJob] 3 :=
  ⟨by decide, by decide,
   C10_remove_user_jobs_substring.2 [crossJob] 3 crossJob (by decide) (by decide)⟩

/-- `halfwayCount` distributes over appending traces. -/
theorem halfwayCount_append (ms ms' : List DMsg) :
    halfwayCount (ms ++ ms') = halfwayCount ms + halfwayCount ms' := by
  simp [halfwayCount, List.filter_append]

/-- One sweep visit never decreases a task's `reminder_count`. -/
theorem sweepTask_reminder_count_mono (t : DelegatedTask) (now : Int) (env : SweepEnv) :
    t.reminder_count ≤ (sweepTask t now env).1.reminder_count := by
  unfold sweepTask process_reminder send_overdue_reminder sendTierReminder
  rcases hl : t.last_reminder_at with _ | last <;> simp only [hl] <;>
    repeat' split
  all_goals try simp_all

/-- One sweep visit either sends no halfway message, or the task's count was
0, the visit leaves it at 1, and exactly one halfway message went out. -/
theorem sweepTask_halfway_structure (t : DelegatedTask) (now : Int) (env : SweepEnv) :
    halfwayCount (sweepTask t now env).2 = 0 ∨
    (t.reminder_count = 0 ∧ (sweepTask t now env).1.reminder_count = 1 ∧
      halfwayCount (sweepTask t now env).2 = 1) := by
  unfold sweepTask process_reminder send_overdue_reminder sendTierReminder
  rcases hl : t.last_reminder_at with _ | last <;> simp only [hl] <;>
    repeat' split
  all_goals simp_all [halfwayCount]

/-- Once `reminder_count` is positive, no later sweep run ever sends the
halfway reminder again. -/
theorem runSweeps_halfway_zero (steps : List (Int × SweepEnv)) :
    ∀ (t : DelegatedTask), 1 ≤ t.reminder_count →
      halfwayCount (runSweeps t steps).2 = 0 := by
  induction steps with
  | nil => intro t h; rfl
  | cons s rest ih =>
      intro t h
      obtain ⟨now, env⟩ := s
      have hmono := sweepTask_reminder_count_mono t now env
      have hstruct := sweepTask_halfway_structure t now env
      unfold runSweeps
      rw [halfwayCount_append]
      rcases hstruct with h0 | ⟨hc0, _, _⟩
      · rw [h0, ih _ (le_trans h hmono)]
      · omega

/-- Across any sequence of sweep runs, the halfway reminder goes out at most
once. -/
theorem runSweeps_halfway_le_one (steps : List (Int × SweepEnv)) :
    ∀ (t : DelegatedTask), halfwayCount (runSweeps t steps).2 ≤ 1 := by
  induction steps with
  | nil => intro t; simp [runSweeps, halfwayCount]
  | cons s rest ih =>
      intro t
      obtain ⟨now, env⟩ := s
      have hstruct := sweepTask_halfway_structure t now env
      unfold runSweeps
      rw [halfwayCount_append]
      rcases hstruct with h0 | ⟨_, hc1, hcnt⟩
      · rw [h0]
        simpa using ih (sweepTask t now env).1
      · rw [hcnt, runSweeps_halfway_zero rest _ (by omega)]

/-- `reminder_count` never decreases across a sequence of sweep runs. -/
theorem runSweeps_reminder_count_mono (steps : List (Int × SweepEnv)) :
    ∀ (t : DelegatedTask), t.reminder_count ≤ (runSweeps t steps).1.reminder_count := by
  induction steps with
  | nil => intro t; exact le_refl _
  | cons s rest ih =>
      intro t
      obtain ⟨now, env⟩ := s
      have hmono := sweepTask_reminder_count_mono t now env
      unfold runSweeps
      exact le_trans hmono (ih _)

/-- A message delivered by one of the three tier senders implies the
increment and the timestamp. -/
theorem sendTierReminder_increment (t : DelegatedTask) (now : Int) (env : SweepEnv)
    (tag : DMsgTag) (m : DMsg) (hm : m ∈ (sendTierReminder t now env tag).2) :
    (sendTierReminder t now env tag).1.reminder_count = t.reminder_count + 1 ∧
    (sendTierReminder t now env tag).1.last_reminder_at = some now := by
  unfold sendTierReminder at hm ⊢
  repeat' split at hm <;> simp_all

/-- The overdue sender only ever emits overdue-tagged messages. -/
theorem send_overdue_reminder_tags (t : DelegatedTask) (now : Int) (env : SweepEnv) (m : DMsg)
    (hm : m ∈ (send_overdue_reminder t now env).2) :
    m.tag = DMsgTag.overdueToAssignee ∨ m.tag = DMsgTag.overdueToAssigner := by
  unfold send_overdue_reminder at hm
  rcases hl : t.last_reminder_at with _ | last <;> simp only [hl] at hm <;>
    repeat' split at hm
  all_goals simp_all
  all_goals (rcases hm with hm | hm <;> simp_all)

/-- `_process_reminder` takes exactly one of five actions: the overdue
sender, one of the three tier senders, or nothing. -/
theorem process_reminder_cases (t : DelegatedTask) (now : Int) (env : SweepEnv) :
    process_reminder t now env = send_overdue_reminder t now env ∨
    process_reminder t now env = sendTierReminder t now env .halfway ∨
    process_reminder t now env = sendTierReminder t now env .oneDayLeft ∨
    process_reminder t now env = sendTierReminder t now env .dueToday ∨
    process_reminder t now env = (t, []) := by
  unfold process_reminder
  dsimp only
  split
  · exact Or.inl rfl
  · split
    · exact Or.inr (Or.inl rfl)
    · split
      · exact Or.inr (Or.inr (Or.inl rfl))
      · split
        · exact Or.inr (Or.inr (Or.inr (Or.inl rfl)))
        · exact Or.inr (Or.inr (Or.inr (Or.inr rfl)))

/-- When a sweep visit emits an escalation-tier message (halfway, one day
left, or due today), it increments `reminder_count` by exactly 1 and stamps
`last_reminder_at` with the sweep instant. -/
theorem sweepTask_tier_increment (t : DelegatedTask) (now : Int) (env : SweepEnv) (m : DMsg)
    (hm : m ∈ (sweepTask t now env).2)
    (htag : m.tag = DMsgTag.halfway ∨ m.tag = DMsgTag.oneDayLeft ∨ m.tag = DMsgTag.dueToday) :
    (sweepTask t now env).1.reminder_count = t.reminder_count + 1 ∧
    (sweepTask t now env).1.last_reminder_at = some now := by
  unfold sweepTask at hm ⊢
  split at hm
  · rename_i hacc
    rw [if_pos hacc]
    rcases process_reminder_cases t now env with hc | hc | hc | hc | hc <;> rw [hc] at hm ⊢
    · rcases send_overdue_reminder_tags t now env m hm with h2 | h2 <;>
        rcases htag with h | h | h <;> rw [h] at h2 <;> exact DMsgTag.noConfusion h2
    · exact sendTierReminder_increment t now env _ m hm
    · exact sendTierReminder_increment t now env _ m hm
    · exact sendTierReminder_increment t now env _ m hm
    · simp at hm
  · simp at hm

/-- C5: across any sequence of delegation-sweep runs, a task's
`reminder_count` never decreases; the halfway reminder is sent at most once
per task, however often the sweep runs; and each escalation tier, when it
fires, increments `reminder_count` by exactly 1 and stamps
`last_reminder_at`. -/
theorem C5_escalation_counters :
    (∀ (t : DelegatedTask) (steps : List (Int × SweepEnv)),
        t.reminder_count ≤ (runSweeps t steps).1.reminder_count) ∧
    (∀ (t : DelegatedTask) (steps : List (Int × SweepEnv)),
        halfwayCount (runSweeps t steps).2 ≤ 1) ∧
    (∀ (t : DelegatedTask) (now : Int) (env : SweepEnv) (m : DMsg),
        m ∈ (sweepTask t now env).2 →
        (m.tag = DMsgTag.halfway ∨ m.tag = DMsgTag.oneDayLeft ∨ m.tag = DMsgTag.dueToday) →
        (sweepTask t now env).1.reminder_count = t.reminder_count + 1 ∧
        (sweepTask t now env).1.last_reminder_at = some now) :=
  ⟨fun t steps => runSweeps_reminder_count_mono steps t,
   fun t steps => runSweeps_halfway_le_one steps t,
   sweepTask_tier_increment⟩

/-- C5 witness: `hwTask` at 50 percent progress (day 5 of 10) gets the
halfway reminder, its count goes from 0 to 1 and `last_reminder_at` is
stamped. -/
theorem C5_escalation_counters_witness :
    (⟨DMsgTag.halfway, 200⟩ : DMsg) ∈ (sweepTask hwTask 432000 allOk).2 ∧
    ((sweepTask hwTask 432000 allOk).1.reminder_count = hwTask.reminder_count + 1 ∧
     (sweepTask hwTask 432000 allOk).1.last_reminder_at = some 432000) :=
  ⟨by decide,
   C5_escalation_counters.2.2 hwTask 432000 allOk ⟨DMsgTag.halfway, 200⟩ (by decide)
     (Or.inl rfl)⟩

/-- C6: the claim fails on the code.  Sweep 1 (day 7, deadline day 5) sets
the task's status to overdue, notifies both the assignee and the assigner,
increments the count and stamps `last_reminder_at` — but sweep 2 two days
later sends nothing and changes nothing: `check_and_send_reminders` selects
only tasks with status `accepted`, so a task that has become overdue is
never processed again and overdue-repeat reminders never fire. -/
theorem C6_no_overdue_repeat_after_first_sweep :
    check_and_send_reminders [odTask] 604800 allOk =
      ([{ odTask with status := "overdue", reminder_count := 1, last_reminder_at := some 604800 }],
       [⟨DMsgTag.overdueToAssignee, 200⟩, ⟨DMsgTag.overdueToAssigner, 100⟩]) ∧
    check_and_send_reminders
        [{ odTask with status := "overdue", reminder_count := 1, last_reminder_at := some 604800 }]
        777600 allOk =
      ([{ odTask with status := "overdue", reminder_count := 1, last_reminder_at := some 604800 }],
       []) := by
  decide

/-- C7: the questions stage is a no-op — store untouched, no message sent,
no API call made — whenever today's progress row is absent or has
`text_sent = false`, and likewise when `questions_sent` is already true;
this holds regardless of trigger times, of whether the audio stage ran, of
API availability and of what the API would answer. -/
theorem C7_questions_require_text :
    ∀ (st : LangState) (uid today now : Nat) (apiAvailable : Bool)
      (apiQuestions : Option (List String)) (sendOk : Bool) (habit : LanguageHabit),
      findReadingHabit st.habits uid = some habit →
      (∀ p, findTodayProgress st.progresses habit.id today = some p →
        p.text_sent = false ∨ p.questions_sent = true) →
      send_comprehension_questions st uid today now apiAvailable apiQuestions sendOk =
        (st, [], []) := by
  intro st uid today now apiav apiq sendOk habit hfind hp
  unfold send_comprehension_questions
  rw [hfind]
  dsimp only
  cases hbook : habit.current_book_id with
  | none => rfl
  | some b =>
      cases hprog : findTodayProgress st.progresses habit.id today with
      | none => rfl
      | some p =>
          rcases hp p hprog with h1 | h2
          · simp [h1]
          · by_cases ht : p.text_sent = true
            · simp [ht, h2]
            · simp only [Bool.not_eq_true] at ht
              simp [ht]

/-- C7 witness: `rState` has the active reading habit `rHabit` and a
progress row with `text_sent = false`; the questions stage does nothing
even with the trigger due, the API reachable and a nonempty question set. -/
theorem C7_questions_require_text_witness :
    findReadingHabit rState.habits 7 = some rHabit ∧
    send_comprehension_questions rState 7 20251020 999 true (some ["q1", "q2", "q3"]) true =
      (rState, [], []) :=
  ⟨by decide,
   C7_questions_require_text rState 7 20251020 999 true (some ["q1", "q2", "q3"]) true rHabit
     (by decide)
     (by
       intro p hp
       have heq : findTodayProgress rState.progresses rHabit.id 20251020 = some rProgress := by
         decide
       rw [heq] at hp
       injection hp with hp
       rw [← hp]
       left
       rfl)⟩

/-- C8 counterexample: the text stage fires for user 7, whose active
reading habit has a book but whose progress row stores no fragment; by the
claim it would have to fetch a fresh fragment and update the word and
fragment counters on display — but the embedded `_send_reading_reminder`
performs no API call, leaves `words_read` and `fragments_read` at 0, while
still displaying (sending the reminder) and marking `text_sent`. -/
theorem C8_counterexample :
    rProgress.pending_fragment = none ∧
    (send_reading_reminder rState 7 20251020 999 true).2.2 = [] ∧
    (send_reading_reminder rState 7 20251020 999 true).2.1 = [LMsg.readingReminder 7] ∧
    ((findTodayProgress (send_reading_reminder rState 7 20251020 999 true).1.progresses
        1 20251020).map (fun p => (p.words_read, p.fragments_read, p.text_sent))) =
      some (0, 0, true) := by
  decide

/-- Updating today's row with a field map that fixes a projection leaves
that projection of the whole table unchanged. -/
theorem updateProgress_map_eq {α : Type} (ps : List LanguageProgress) (hid day : Nat)
    (f : LanguageProgress → LanguageProgress) (proj : LanguageProgress → α)
    (hf : ∀ p, proj (f p) = proj p) :
    (updateProgress ps hid day f).map proj = ps.map proj := by
  unfold updateProgress
  rw [List.map_map]
  apply List.map_congr_left
  intro p _
  by_cases h : (p.habit_id == hid && p.day == day) = true
  · show proj (if p.habit_id == hid && p.day == day then f p else p) = proj p
    rw [if_pos h]
    exact hf p
  · show proj (if p.habit_id == hid && p.day == day then f p else p) = proj p
    rw [if_neg h]

/-- Updating today's row with a field map that preserves the key fields
commutes with looking today's row up. -/
theorem findTodayProgress_updateProgress (ps : List LanguageProgress) (hid day : Nat)
    (f : LanguageProgress → LanguageProgress)
    (hf : ∀ p, (f p).habit_id = p.habit_id ∧ (f p).day = p.day)
    (p : LanguageProgress) (hp : findTodayProgress ps hid day = some p) :
    findTodayProgress (updateProgress ps hid day f) hid day = some (f p) := by
  unfold findTodayProgress updateProgress
  unfold findTodayProgress at hp
  revert hp
  induction ps with
  | nil => intro hp; simp at hp
  | cons q qs ih =>
      intro hp
      rw [List.find?_cons] at hp
      simp only [List.map_cons, List.find?_cons]
      by_cases hq : (q.habit_id == hid && q.day == day) = true
      · rw [hq] at hp
        injection hp with hp
        subst hp
        rw [if_pos hq]
        have hfq : ((f q).habit_id == hid && (f q).day == day) = true := by
          rw [(hf q).1, (hf q).2]
          exact hq
        rw [hfq]
      · have hqf : (q.habit_id == hid && q.day == day) = false := by
          simp only [Bool.not_eq_true] at hq
          exact hq
        rw [hqf] at hp
        have hp2 : List.find? (fun r => r.habit_id == hid && r.day == day) qs = some p := hp
        rw [if_neg hq, hqf]
        exact ih hp2

/-- C8 (amended): the text stage never calls the Language API (it neither
reuses the stored fragment nor fetches a fresh one) and never changes
`words_read`, `fragments_read` or the stored fragment of any progress row;
when it fires for a user with an active reading habit whose goal is not yet
met and today's row exists and the send succeeds, it marks that row's
`text_sent` with the current timestamp — and that is its only write. -/
theorem C8_text_stage_behavior :
    (∀ (st : LangState) (uid today now : Nat) (sendOk : Bool),
        (send_reading_reminder st uid today now sendOk).2.2 = []) ∧
    (∀ (st : LangState) (uid today now : Nat) (sendOk : Bool),
        (send_reading_reminder st uid today now sendOk).1.progresses.map
            (fun p => (p.words_read, p.fragments_read, p.pending_fragment)) =
          st.progresses.map (fun p => (p.words_read, p.fragments_read, p.pending_fragment))) ∧
    (∀ (st : LangState) (uid today now : Nat) (habit : LanguageHabit) (p : LanguageProgress),
        findReadingHabit st.habits uid = some habit →
        findTodayProgress st.progresses habit.id today = some p →
        habit.daily_goal - p.words_read ≠ 0 →
        findTodayProgress (send_reading_reminder st uid today now true).1.progresses
            habit.id today =
          some { p with text_sent := true, text_sent_at := some now }) := by
  refine ⟨?_, ?_, ?_⟩
  · intro st uid today now sendOk
    unfold send_reading_reminder
    dsimp only
    repeat' split
    all_goals rfl
  · intro st uid today now sendOk
    unfold send_reading_reminder
    dsimp only
    repeat' split
    all_goals try rfl
    all_goals
      exact updateProgress_map_eq _ _ _ _ _ (fun p => rfl)
  · intro st uid today now habit p hfind hprog hleft
    unfold send_reading_reminder
    rw [hfind]
    dsimp only
    rw [hprog]
    dsimp only
    rw [if_neg (by simp [hleft]), if_pos rfl]
    dsimp only
    exact findTodayProgress_updateProgress st.progresses habit.id today
      (fun q => { q with text_sent := true, text_sent_at := some now })
      (fun q => ⟨rfl, rfl⟩) p hprog

/-- C8 witness: the amended statement applied to `rState` — after the text
stage runs, today's row is the old row with `text_sent` marked and
timestamped. -/
theorem C8_text_stage_behavior_witness :
    findReadingHabit rState.habits 7 = some rHabit ∧
    findTodayProgress (send_reading_reminder rState 7 20251020 999 true).1.progresses
        1 20251020 =
      some { rProgress with text_sent := true, text_sent_at := some 999 } :=
  ⟨by decide,
   C8_text_stage_behavior.2.2 rState 7 20251020 999 rHabit rProgress
     (by decide) (by decide) (by decide)⟩
